import Mathlib

/-!
Verification of the Matrix↔Flowise bridge bot (`matrix-bot.py`).

The file shallowly embeds the bot's pure logic:
hashes and encodings (`hashlib.sha256`, `base64.b64encode`, UTF-8),
the session store (`generate_session_id`, `get_or_create_session`),
the attachment cache, the event handlers (`on_message`, `on_file`,
`handle_command`) and the resilient sender (`safe_room_send`,
`send_unencrypted_message`).  Network effects are closed over by passing
the outcome of each external call as an explicit input; Python `dict`s
become maps `κ → Option α`; Python exceptions become `Except`.
-/

namespace FlowiseBot

/-- Iterate a function `n` times (used for the SHA-256 schedule). -/
def iterN (f : α → α) : Nat → α → α
  | 0, a => a
  | n + 1, a => iterN f n (f a)

/-! ## UTF-8 encoding (Python `str.encode()`) -/

/-- UTF-8 encoding of one Unicode scalar value, as bytes (each < 256). -/
def utf8EncodeCharNat (c : Nat) : List Nat :=
  if c < 0x80 then [c]
  else if c < 0x800 then
    [0xC0 ||| (c >>> 6), 0x80 ||| (c &&& 0x3F)]
  else if c < 0x10000 then
    [0xE0 ||| (c >>> 12), 0x80 ||| ((c >>> 6) &&& 0x3F), 0x80 ||| (c &&& 0x3F)]
  else
    [0xF0 ||| (c >>> 18), 0x80 ||| ((c >>> 12) &&& 0x3F),
     0x80 ||| ((c >>> 6) &&& 0x3F), 0x80 ||| (c &&& 0x3F)]

/-- Bytes of a string under UTF-8, mirroring Python `s.encode()`. -/
def utf8Bytes (s : String) : List Nat :=
  s.data.flatMap (fun c => utf8EncodeCharNat c.toNat)

/-! ## Hex rendering -/

/-- Lowercase hex digit for a value < 16. -/
def hexDigit (n : Nat) : Char :=
  if n < 10 then Char.ofNat (48 + n) else Char.ofNat (87 + n)

/-- 8-hex-digit big-endian rendering of a 32-bit word. -/
def hexOfWord (x : Nat) : String :=
  String.mk ((List.range 8).map (fun i => hexDigit ((x >>> (4 * (7 - i))) &&& 15)))

/-! ## SHA-256 (`hashlib.sha256`), over `Nat` with arithmetic mod 2^32 -/

def M32 : Nat := 4294967296

def add32 (a b : Nat) : Nat := (a + b) % M32

def rotr32 (n x : Nat) : Nat := ((x >>> n) ||| ((x <<< (32 - n)) % M32)) % M32

def bsig0 (x : Nat) : Nat := (rotr32 2 x) ^^^ (rotr32 13 x) ^^^ (rotr32 22 x)

def bsig1 (x : Nat) : Nat := (rotr32 6 x) ^^^ (rotr32 11 x) ^^^ (rotr32 25 x)

def ssig0 (x : Nat) : Nat := (rotr32 7 x) ^^^ (rotr32 18 x) ^^^ (x >>> 3)

def ssig1 (x : Nat) : Nat := (rotr32 17 x) ^^^ (rotr32 19 x) ^^^ (x >>> 10)

def ch32 (x y z : Nat) : Nat := (x &&& y) ^^^ ((x ^^^ 0xFFFFFFFF) &&& z)

def maj32 (x y z : Nat) : Nat := (x &&& y) ^^^ (x &&& z) ^^^ (y &&& z)

/-- The 64 SHA-256 round constants (FIPS 180-4, written in decimal). -/
def K256 : List Nat :=
  [1116352408, 1899447441, 3049323471, 3921009573, 961987163,
   1508970993, 2453635748, 2870763221, 3624381080, 310598401,
   607225278, 1426881987, 1925078388, 2162078206, 2614888103,
   3248222580, 3835390401, 4022224774, 264347078, 604807628,
   770255983, 1249150122, 1555081692, 1996064986, 2554220882,
   2821834349, 2952996808, 3210313671, 3336571891, 3584528711,
   113926993, 338241895, 666307205, 773529912, 1294757372,
   1396182291, 1695183700, 1986661051, 2177026350, 2456956037,
   2730485921, 2820302411, 3259730800, 3345764771, 3516065817,
   3600352804, 4094571909, 275423344, 430227734, 506948616,
   659060556, 883997877, 958139571, 1322822218, 1537002063,
   1747873779, 1955562222, 2024104815, 2227730452, 2361852424,
   2428436474, 2756734187, 3204031479, 3329325298]

/-- The SHA-256 initial hash value (FIPS 180-4, written in decimal). -/
def H256 : List Nat :=
  [1779033703, 3144134277, 1013904242, 2773480762, 1359893119,
   2600822924, 528734635, 1541459225]

/-- Big-endian byte rendering of `x` on `n` bytes. -/
def toBytesBE (n x : Nat) : List Nat :=
  (List.range n).map (fun i => (x >>> (8 * (n - 1 - i))) &&& 255)

/-- SHA-256 padding: append `0x80`, zeros to 56 mod 64, then the 64-bit bit length. -/
def shaPad (msg : List Nat) : List Nat :=
  let l := msg.length
  let k := (119 - l % 64) % 64
  msg ++ [0x80] ++ List.replicate k 0 ++ toBytesBE 8 (8 * l)

/-- Pack bytes into 32-bit big-endian words. -/
def bytesToWords : List Nat → List Nat
  | b0 :: b1 :: b2 :: b3 :: rest =>
    ((((((b0 <<< 8) ||| b1) <<< 8) ||| b2) <<< 8) ||| b3) :: bytesToWords rest
  | _ => []

/-- One extension step of the message schedule: append word `W[n]` for `n ≥ 16`. -/
def scheduleStep (w : List Nat) : List Nat :=
  let n := w.length
  let wt := add32 (add32 (ssig1 (w.getD (n - 2) 0)) (w.getD (n - 7) 0))
                  (add32 (ssig0 (w.getD (n - 15) 0)) (w.getD (n - 16) 0))
  w ++ [wt]

/-- Extend the 16 block words to the 64 schedule words. -/
def schedule (w16 : List Nat) : List Nat := iterN scheduleStep 48 w16

/-- Working state of the SHA-256 compression function. -/
structure Sha8 where
  a : Nat
  b : Nat
  c : Nat
  d : Nat
  e : Nat
  f : Nat
  g : Nat
  h : Nat

/-- One SHA-256 compression round with round constant `kt` and schedule word `wt`. -/
def compressStep (s : Sha8) (kw : Nat × Nat) : Sha8 :=
  let t1 := add32 s.h (add32 (bsig1 s.e) (add32 (ch32 s.e s.f s.g) (add32 kw.1 kw.2)))
  let t2 := add32 (bsig0 s.a) (maj32 s.a s.b s.c)
  ⟨add32 t1 t2, s.a, s.b, s.c, add32 s.d t1, s.e, s.f, s.g⟩

/-- Compress one 64-byte block into the running 8-word hash value. -/
def compressBlock (h : List Nat) (block : List Nat) : List Nat :=
  let ws := schedule (bytesToWords block)
  let s0 : Sha8 := ⟨h.getD 0 0, h.getD 1 0, h.getD 2 0, h.getD 3 0,
                    h.getD 4 0, h.getD 5 0, h.getD 6 0, h.getD 7 0⟩
  let s := (K256.zip ws).foldl compressStep s0
  [add32 (h.getD 0 0) s.a, add32 (h.getD 1 0) s.b, add32 (h.getD 2 0) s.c,
   add32 (h.getD 3 0) s.d, add32 (h.getD 4 0) s.e, add32 (h.getD 5 0) s.f,
   add32 (h.getD 6 0) s.g, add32 (h.getD 7 0) s.h]

/-- Split into 64-byte chunks (fuel-based structural recursion; the fuel
`l.length + 1` always suffices since each step strictly shrinks the list). -/
def chunks64Fuel : Nat → List Nat → List (List Nat)
  | 0, _ => []
  | _, [] => []
  | fuel + 1, l => l.take 64 :: chunks64Fuel fuel (l.drop 64)

def chunks64 (l : List Nat) : List (List Nat) := chunks64Fuel (l.length + 1) l

/-- SHA-256 digest of a byte list, as 8 32-bit words. -/
def sha256Words (msg : List Nat) : List Nat :=
  (chunks64 (shaPad msg)).foldl compressBlock H256

/-- Lowercase hex digest of SHA-256, mirroring Python `hashlib.sha256(b).hexdigest()`. -/
def sha256Hex (msg : List Nat) : String :=
  String.join ((sha256Words msg).map hexOfWord)

/-! ## Base64 (`base64.b64encode(...).decode()`) -/

/-- Character of the standard base64 alphabet at index `n < 64`. -/
def b64Char (n : Nat) : Char :=
  if n < 26 then Char.ofNat (65 + n)
  else if n < 52 then Char.ofNat (97 + (n - 26))
  else if n < 62 then Char.ofNat (48 + (n - 52))
  else if n = 62 then '+' else '/'

/-- Encode bytes in 3-byte groups to base64 characters with `=` padding. -/
def base64Chars : List Nat → List Char
  | [] => []
  | [b0] =>
    let v := b0 <<< 16
    [b64Char ((v >>> 18) &&& 63), b64Char ((v >>> 12) &&& 63), '=', '=']
  | [b0, b1] =>
    let v := (b0 <<< 16) ||| (b1 <<< 8)
    [b64Char ((v >>> 18) &&& 63), b64Char ((v >>> 12) &&& 63), b64Char ((v >>> 6) &&& 63), '=']
  | b0 :: b1 :: b2 :: rest =>
    let v := (b0 <<< 16) ||| (b1 <<< 8) ||| b2
    b64Char ((v >>> 18) &&& 63) :: b64Char ((v >>> 12) &&& 63) ::
    b64Char ((v >>> 6) &&& 63) :: b64Char (v &&& 63) :: base64Chars rest

/-- Base64 string of a byte list, as Python `base64.b64encode(b).decode('utf-8')`. -/
def base64Encode (bs : List Nat) : String := String.mk (base64Chars bs)

/-- Python `str.strip()`: drop leading and trailing whitespace
(embedded over the character list so that it reduces definitionally). -/
def pyStrip (s : String) : String :=
  String.mk (((s.data.dropWhile Char.isWhitespace).reverse.dropWhile Char.isWhitespace).reverse)

/-- Python `str.startswith(pre)` (embedded over the character lists so that
it reduces definitionally). -/
def pyStartsWith (s pre : String) : Bool := pre.data.isPrefixOf s.data

/-- `pat` occurs as a contiguous block of `l` (at any position). -/
def listHasInfix (pat : List Char) : List Char → Bool
  | [] => pat.isEmpty
  | c :: rest => pat.isPrefixOf (c :: rest) || listHasInfix pat rest

/-- Substring test: `pat` occurs contiguously in `s`. -/
def strContains (s pat : String) : Bool := listHasInfix pat.data s.data

/-! ## Data model

`MIME_TO_EXTENSION` (matrix-bot.py lines 32-49). -/

def MIME_TO_EXTENSION : List (String × String) :=
  [("application/pdf", ".pdf"),
   ("text/plain", ".txt"),
   ("application/vnd.openxmlformats-officedocument.wordprocessingml.document", ".docx"),
   ("application/json", ".json"),
   ("text/csv", ".csv"),
   ("image/jpeg", ".jpg"),
   ("image/png", ".png"),
   ("image/gif", ".gif"),
   ("text/markdown", ".md"),
   ("text/x-python", ".py"),
   ("application/x-python-code", ".py"),
   ("application/javascript", ".js"),
   ("text/html", ".html"),
   ("text/css", ".css"),
   ("application/vnd.ms-excel", ".xls"),
   ("application/vnd.openxmlformats-officedocument.spreadsheetml.sheet", ".xlsx")]

/-- `MIME_TO_EXTENSION[m]` as an option; `isSome` mirrors `m in MIME_TO_EXTENSION`. -/
def mimeLookup (m : String) : Option String :=
  (MIME_TO_EXTENSION.find? (fun p => p.1 = m)).map Prod.snd

/-- Value stored in `self.file_cache` for one `(room, sender)` key
(matrix-bot.py lines 412-417): base64 data, MIME type, file name, declared size. -/
structure FileInfo where
  data : String
  mime : String
  name : String
  size : Nat
deriving DecidableEq

/-- One element of the `uploads` array sent to Flowise (lines 564-569);
the JSON `"type"` key is rendered here as `ftype` (`type` is reserved in Lean). -/
structure Upload where
  data : String
  ftype : String
  name : String
  mime : String
deriving DecidableEq

/-- The upload dict built from a cached file: `data:{mime};base64,{data}`, `file:full`. -/
def mkUpload (fi : FileInfo) : Upload :=
  ⟨"data:" ++ fi.mime ++ ";base64," ++ fi.data, "file:full", fi.name, fi.mime⟩

/-- The JSON body POSTed to Flowise (lines 554-569): `question`,
`session_id` (also duplicated under `overrideConfig.sessionId`), optional `uploads`. -/
structure FlowiseRequest where
  question : String
  session_id : String
  uploads : Option Upload
deriving DecidableEq

/-- Outcome of the HTTP POST to Flowise, as seen by `on_message`:
a status code with the parsed `text` field of the JSON body (when present),
a client-side timeout (`asyncio.TimeoutError`), or any other raised
exception (including a JSON body that fails to parse), with `str(e)`. -/
inductive GatewayOutcome
  | response (status : Nat) (jsonText : Option String)
  | timeout
  | exn (msg : String)
deriving DecidableEq

/-- Observable actions of a handler run: a text message sent to the room
(`send_text_message`, with its full text), the `!status` reply (whose text
interpolates a wall-clock datetime rendering that no claim depends on, so
its text is not reproduced), and an HTTP request issued to Flowise. -/
inductive Output
  | sent (text : String)
  | sentStatus
  | gatewayCall (req : FlowiseRequest)
deriving DecidableEq

/-- Bot state relevant to the handlers: start time (ms), own user id, and
the two caches (Python dicts, embedded as maps into `Option`). -/
structure BotState where
  start_time : Nat
  botUserId : String
  file_cache : String × String → Option FileInfo
  session_cache : String → Option String

/-! ## Session store -/

/-- `generate_session_id` (lines 174-176): `"matrix_" + sha256(room_id.encode()).hexdigest()[:16]`. -/
def generate_session_id (room_id : String) : String :=
  let session_hash := (sha256Hex (utf8Bytes room_id)).take 16
  "matrix_" ++ session_hash

/-- `get_or_create_session` (lines 178-184): return the cached id for the
room, inserting a freshly generated one if absent.  Returns the id and the
updated cache. -/
def get_or_create_session (cache : String → Option String) (room_id : String) :
    String × (String → Option String) :=
  match cache room_id with
  | some s => (s, cache)
  | none =>
    let s := generate_session_id room_id
    (s, fun r => if r = room_id then some s else cache r)

/-! ## Freshness filter -/

/-- `should_process_message` (lines 124-143): `origin_server_ts` defaults to 0;
0 is processed defensively; anything older than the bot start time is skipped. -/
def should_process_message (start_time : Nat) (event_ts : Nat) : Bool :=
  if event_ts = 0 then true
  else if event_ts < start_time then false
  else true

/-! ## Command processor -/

/-- The literal `!help` / `!start` reply text (lines 672-683). -/
def help_text : String :=
  "🤖 **Команды бота:**\n!help или !start - Показать это сообщение\n!reset - Сбросить историю диалога (начать новый разговор)\n!session - Показать ID текущей сессии\n\n📁 **Как отправить файл:**\n1. Просто отправьте файл в чат (PDF, TXT, DOCX, изображения)\n2. Бот подтвердит получение файла\n3. Задайте вопрос по файлу\n\n💾 **Лимит файла:** ~10MB\n🆔 **Сессии:** Каждая комната имеет свою сессию, бот помнит контекст в рамках комнаты"

/-- The reply of the final `else` branch of `handle_command` (line 700). -/
def unknown_command_text (command : String) : String :=
  "❓ Неизвестная команда: " ++ command ++ "\nИспользуйте !help для списка команд."

/-- `handle_command` (lines 653-700).  `command = event.body.strip()`; branches
on `!reset`, `!session`, `!help`/`!start`, `!status`, else unknown.  Returns the
updated state and the outputs (sent messages; no branch contacts Flowise). -/
def handle_command (st : BotState) (room_id : String) (body : String) :
    BotState × List Output :=
  let command := pyStrip body
  if command = "!reset" then
    if (st.session_cache room_id).isSome then
      ({st with session_cache := fun r => if r = room_id then none else st.session_cache r},
       [.sent "🔄 Сессия сброшена. Начинаем новый диалог."])
    else
      (st, [.sent "Сессия не сброшена."])
  else if command = "!session" then
    let p := get_or_create_session st.session_cache room_id
    ({st with session_cache := p.2},
     [.sent ("🆔 ID сессии: " ++ p.1 ++ "\nКомната: " ++ room_id.take 30 ++ "...")])
  else if command = "!help" ∨ command = "!start" then
    (st, [.sent help_text])
  else if command = "!status" then
    (st, [.sentStatus])
  else
    (st, [.sent (unknown_command_text command)])

/-! ## Text-message handler -/

/-- A `RoomMessageText` event together with the outcome of the downstream
Flowise call it would trigger (the network response is an input closing the
open system).  `ts` is `source['origin_server_ts']`, 0 when absent. -/
structure TextEvent where
  room : String
  sender : String
  body : String
  ts : Nat
  gateway : GatewayOutcome

/-- The reply text computed by `on_message` (lines 583-608) from the
Flowise call outcome: 200 → `text` field (default notice, 4000-char
truncation), 413 → too-large notice, other status → generic error with the
code, timeout → timeout notice, other exception → error with `str(e)[:200]`. -/
def flowise_answer : GatewayOutcome → String
  | .response 200 t =>
    let answer := t.getD "🤖 No response from Flowise"
    if answer.length > 4000 then
      answer.take 4000 ++ "...\n\n(Ответ слишком длинный, обрезан)"
    else answer
  | .response 413 _ => "❌ Файл слишком большой для обработки Flowise (макс. ~10MB)."
  | .response status _ => "❌ Flowise error: " ++ toString status
  | .timeout => "⏰ Flowise не ответил вовремя. Попробуйте позже."
  | .exn msg => "❌ Error processing request: " ++ msg.take 200

/-- Body of `on_message` after the self/stale filters (lines 541-608):
commands go to `handle_command`; otherwise the pending attachment is popped
from `file_cache`, a session is ensured, the Flowise request is issued and
the computed answer is sent back. -/
def on_message_core (st : BotState) (e : TextEvent) : BotState × List Output :=
  if pyStartsWith e.body "!" then
    handle_command st e.room e.body
  else
    let key := (e.room, e.sender)
    let file_info := st.file_cache key
    let fc := fun k => if k = key then none else st.file_cache k
    let p := get_or_create_session st.session_cache e.room
    let req : FlowiseRequest :=
      {question := e.body, session_id := p.1, uploads := file_info.map mkUpload}
    ({st with file_cache := fc, session_cache := p.2},
     [.gatewayCall req, .sent (flowise_answer e.gateway)])

/-- `on_message` (lines 528-608): ignore own messages, skip stale ones,
then run the core. -/
def on_message (st : BotState) (e : TextEvent) : BotState × List Output :=
  if e.sender = st.botUserId then (st, [])
  else if ¬ should_process_message st.start_time e.ts then (st, [])
  else on_message_core st e

/-! ## File handler -/

/-- A `RoomMessageFile` event, with the optional metadata `on_file` inspects
(`event.file.mimetype`, `event.file.size`, `source['content']['info']`),
the optional `event.url`, and the body of the media download it would
trigger (`none` when the download fails). -/
structure FileEvent where
  room : String
  sender : String
  body : String
  ts : Nat
  fileMime : Option String
  fileSize : Option Nat
  srcInfoMime : Option String
  srcInfoSize : Option Nat
  url : Option String
  downloadBody : Option (List Nat)

/-- MIME/size resolution of `on_file` (lines 370-386): start from
`application/octet-stream`, take a truthy `event.file.mimetype` and
`event.file.size` when present; only when the type is still octet-stream,
consult `source['content']['info']`. -/
def resolveMimeSize (e : FileEvent) : String × Nat :=
  let mime1 := match e.fileMime with
    | some m => if m = "" then "application/octet-stream" else m
    | none => "application/octet-stream"
  let size1 := e.fileSize.getD 0
  if mime1 = "application/octet-stream" then
    (e.srcInfoMime.getD mime1, e.srcInfoSize.getD size1)
  else
    (mime1, size1)

/-- The MIME type `on_file` resolves for the event. -/
def resolved_mime (e : FileEvent) : String := (resolveMimeSize e).1

/-- The file size `on_file` resolves for the event. -/
def resolved_size (e : FileEvent) : Nat := (resolveMimeSize e).2

/-- File name (lines 367, 388-390): `event.body or 'file'`, with the table
extension appended when the name has no dot and the MIME type is known. -/
def resolved_name (e : FileEvent) : String :=
  let file_name := if e.body = "" then "file" else e.body
  if ¬ file_name.contains '.' ∧ (mimeLookup (resolved_mime e)).isSome then
    file_name ++ (mimeLookup (resolved_mime e)).getD ""
  else file_name

/-- `download_and_encode_file` (lines 277-300): `none` on a failed download,
`none` past the 100 MB cap, otherwise the base64 of the body. -/
def download_and_encode_file (body : Option (List Nat)) : Option String :=
  match body with
  | none => none
  | some bs => if bs.length > 100 * 1024 * 1024 then none else some (base64Encode bs)

/-- The cache value `on_file` stores for an accepted file (lines 412-417). -/
def stored_file_info (e : FileEvent) (b64 : String) : FileInfo :=
  ⟨b64, resolved_mime e, resolved_name e, resolved_size e⟩

/-- The unsupported-format reply of `on_file` (lines 400-403). -/
def unsupported_format_text (mime : String) : String :=
  "⚠️ Формат файла " ++ mime ++ " не поддерживается. Поддерживаются: PDF, TXT, DOCX, Excel, изображения, код."

/-- The acknowledgement sent for a cached file (lines 421-426). -/
def file_received_text (name : String) (size : Nat) : String :=
  "📁 Файл '" ++ name ++ "' получен" ++
    (if size > 0 then " (" ++ toString size ++ " байт)" else "") ++
    ". Теперь задайте вопрос по этому файлу."

/-- `on_file` (lines 353-449): ignore own/stale events; resolve name and
MIME; reject unsupported types with a notice (no cache write); otherwise
download, cache the attachment under `(room_id, sender)` and acknowledge,
or report the failed/impossible download. -/
def on_file (st : BotState) (e : FileEvent) : BotState × List Output :=
  if e.sender = st.botUserId then (st, [])
  else if ¬ should_process_message st.start_time e.ts then (st, [])
  else
    let mime_type := resolved_mime e
    let file_name := resolved_name e
    if (mimeLookup mime_type).isNone then
      (st, [.sent (unsupported_format_text mime_type)])
    else match e.url with
      | some _ =>
        match download_and_encode_file e.downloadBody with
        | some b64 =>
          let cache_key := (e.room, e.sender)
          ({st with file_cache := fun k =>
              if k = cache_key then some (stored_file_info e b64) else st.file_cache k},
           [.sent (file_received_text file_name (resolved_size e))])
        | none =>
          (st, [.sent ("❌ Не удалось загрузить файл '" ++ file_name ++
                       "'. Возможно, он слишком большой (>10MB).")])
      | none =>
        (st, [.sent ("❌ Не удалось получить файл '" ++ file_name ++ "' (нет ссылки).")])

/-! ## Resilient sender -/

/-- Outcome of one `client.room_send` attempt inside `safe_room_send`:
success, `OlmUnverifiedDeviceError`, `KeyError`, or any other exception. -/
inductive AttemptOutcome
  | ok
  | olmUnverified
  | keyError
  | otherExn
deriving DecidableEq

/-- Outcome of the HTTP POST inside `send_unencrypted_message`: a status
code, or an exception raised anywhere in its body. -/
inductive HttpPostOutcome
  | status (code : Nat)
  | raise (msg : String)
deriving DecidableEq

/-- `send_unencrypted_message` (lines 209-234).  Its entire body sits in a
`try`/`except Exception` that only logs, and every path returns `None`;
embedded as an `Except` computation, it is `.ok ()` on every input. -/
def send_unencrypted_message (out : HttpPostOutcome) : Except String Unit :=
  match out with
  | .status _ => .ok ()
  | .raise _ => .ok ()

/-- The retry loop of `safe_room_send` (lines 492-516): success returns
immediately; Olm-verification and key errors are retried; any other
exception breaks out of the loop. -/
def primary_attempts : List AttemptOutcome → Bool
  | [] => false
  | .ok :: _ => true
  | .olmUnverified :: rest => primary_attempts rest
  | .keyError :: rest => primary_attempts rest
  | .otherExn :: _ => false

/-- `safe_room_send` (lines 491-526): up to 3 primary attempts
(`max_retries=3`), then the direct-HTTP fallback; `False` is returned only
when the fallback call raises. -/
def safe_room_send (attempts : List AttemptOutcome) (fallback : HttpPostOutcome) : Bool :=
  if primary_attempts (attempts.take 3) then true
  else
    match send_unencrypted_message fallback with
    | .ok _ => true
    | .error _ => false

/-! ## Sanity: the SHA-256 embedding meets the standard test vectors -/

theorem sha256_test_vector_abc :
    sha256Hex (utf8Bytes "abc")
      = "ba7816bf8f01cfea414140de5dae2223b00361a396177a9cb410ff61f20015ad" := by decide

theorem sha256_test_vector_empty :
    sha256Hex (utf8Bytes "")
      = "e3b0c44298fc1c149afbf4c8996fb92427ae41e4649b934ca495991b7852b855" := by decide

/-! ## Ground facts about the command literals -/

theorem strip_reset : pyStrip "!reset" = "!reset" := rfl

theorem strip_rag : pyStrip "!rag" = "!rag" := rfl

/-! ## Claims -/

/-- C2: for every room R, `get_or_create_session(R)` called twice with no
intervening reset of R returns the same session id both times.  Stated with
an arbitrary second cache that agrees with the first call's result on R, so
any interleaved activity that leaves R's entry alone is covered. -/
theorem get_or_create_idempotent (cache : String → Option String) (room : String)
    (cache2 : String → Option String)
    (h : cache2 room = (get_or_create_session cache room).2 room) :
    (get_or_create_session cache2 room).1 = (get_or_create_session cache room).1 := by
  rcases hc : cache room with _ | s
  · simp [get_or_create_session, hc] at h ⊢
    simp [h]
  · simp [get_or_create_session, hc] at h ⊢
    simp [h]

/-- Witness for C2 at a concrete room and an initially empty cache. -/
theorem get_or_create_idempotent_witness :
    ((get_or_create_session (fun _ => none) "!room:example.org").2 "!room:example.org"
        = (get_or_create_session (fun _ => none) "!room:example.org").2 "!room:example.org")
    ∧ (get_or_create_session
         ((get_or_create_session (fun _ => none) "!room:example.org").2) "!room:example.org").1
        = (get_or_create_session (fun _ => none) "!room:example.org").1 :=
  ⟨rfl, get_or_create_idempotent (fun _ => none) "!room:example.org" _ rfl⟩

/-- C9: session id generation is deterministic and history-independent:
`generate_session_id` always yields `"matrix_"` followed by the first 16
hex digits of the SHA-256 of the room id, and a session recreated after a
`!reset` of the room is the identical string. -/
theorem session_id_deterministic :
    (∀ room : String,
        generate_session_id room = "matrix_" ++ (sha256Hex (utf8Bytes room)).take 16)
    ∧ (∀ (st : BotState) (room : String),
        st.session_cache room = some (generate_session_id room) →
        (get_or_create_session ((handle_command st room "!reset").1).session_cache room).1
          = generate_session_id room) := by
  constructor
  · intro room
    rfl
  · intro st room h
    have hsome : (st.session_cache room).isSome = true := by rw [h]; rfl
    have h1 : (handle_command st room "!reset").1.session_cache room = none := by
      simp [handle_command, strip_reset, hsome]
    simp [get_or_create_session, h1]

/-- Witness for C9 at a concrete state holding a hash-generated session. -/
theorem session_id_deterministic_witness :
    ((⟨100, "@bot:hs",
        (fun _ => none),
        (fun r => if r = "!room:example.org"
                  then some (generate_session_id "!room:example.org") else none)⟩ :
        BotState).session_cache "!room:example.org"
      = some (generate_session_id "!room:example.org"))
    ∧ (get_or_create_session
         ((handle_command
            ⟨100, "@bot:hs",
             (fun _ => none),
             (fun r => if r = "!room:example.org"
                       then some (generate_session_id "!room:example.org") else none)⟩
            "!room:example.org" "!reset").1).session_cache "!room:example.org").1
        = generate_session_id "!room:example.org" :=
  ⟨by simp, session_id_deterministic.2 _ "!room:example.org" (by simp)⟩

/-- C4: a TextMessage or FileMessage event with a nonzero origin timestamp
strictly before the bot's start time is not acted upon (state unchanged, no
output); a zero/absent timestamp passes the freshness filter and the
message is processed normally. -/
theorem stale_event_suppression (st : BotState) (e : TextEvent) (f : FileEvent) :
    (e.ts ≠ 0 → e.ts < st.start_time → on_message st e = (st, []))
    ∧ (f.ts ≠ 0 → f.ts < st.start_time → on_file st f = (st, []))
    ∧ should_process_message st.start_time 0 = true
    ∧ (e.ts = 0 → e.sender ≠ st.botUserId → on_message st e = on_message_core st e) := by
  refine ⟨?_, ?_, rfl, ?_⟩
  · intro h0 hlt
    by_cases hs : e.sender = st.botUserId
    · simp [on_message, hs]
    · simp [on_message, hs, should_process_message, h0, hlt]
  · intro h0 hlt
    by_cases hs : f.sender = st.botUserId
    · simp [on_file, hs]
    · simp [on_file, hs, should_process_message, h0, hlt]
  · intro h0 hs
    simp [on_message, hs, should_process_message, h0]

/-- Witness for C4: a stale text event, a stale file event, and a
zero-timestamp text event at a concrete state. -/
theorem stale_event_suppression_witness :
    ((50 : Nat) ≠ 0 ∧ 50 < 100 ∧
      on_message ⟨100, "@bot:hs", fun _ => none, fun _ => none⟩
        ⟨"!r:hs", "@u:hs", "hello", 50, .timeout⟩
        = (⟨100, "@bot:hs", fun _ => none, fun _ => none⟩, []))
    ∧ (on_file ⟨100, "@bot:hs", fun _ => none, fun _ => none⟩
        ⟨"!r:hs", "@u:hs", "a.txt", 50, some "text/plain", none, none, none, some "mxc://x", none⟩
        = (⟨100, "@bot:hs", fun _ => none, fun _ => none⟩, []))
    ∧ (on_message ⟨100, "@bot:hs", fun _ => none, fun _ => none⟩
        ⟨"!r:hs", "@u:hs", "hello", 0, .timeout⟩
        = on_message_core ⟨100, "@bot:hs", fun _ => none, fun _ => none⟩
            ⟨"!r:hs", "@u:hs", "hello", 0, .timeout⟩) :=
  ⟨⟨by decide, by decide,
    (stale_event_suppression _ _
      ⟨"!r:hs", "@u:hs", "a.txt", 50, some "text/plain", none, none, none, some "mxc://x", none⟩).1
      (by decide) (by decide)⟩,
   (stale_event_suppression ⟨100, "@bot:hs", fun _ => none, fun _ => none⟩
      ⟨"!r:hs", "@u:hs", "hello", 50, .timeout⟩ _).2.1 (by decide) (by decide),
   (stale_event_suppression ⟨100, "@bot:hs", fun _ => none, fun _ => none⟩
      ⟨"!r:hs", "@u:hs", "hello", 0, .timeout⟩
      ⟨"!r:hs", "@u:hs", "a.txt", 50, some "text/plain", none, none, none, some "mxc://x", none⟩).2.2.2
      rfl (by decide)⟩

/-- C7: a FileMessage event whose resolved MIME type is not in the
supported table never creates a file-cache entry and always draws the
unsupported-format reply (for events that reach the handler, i.e. not from
the bot itself and not suppressed as stale). -/
theorem unsupported_mime_no_cache_entry (st : BotState) (e : FileEvent)
    (hs : e.sender ≠ st.botUserId)
    (hf : should_process_message st.start_time e.ts = true)
    (hm : mimeLookup (resolved_mime e) = none) :
    on_file st e = (st, [.sent (unsupported_format_text (resolved_mime e))]) := by
  simp [on_file, hs, hf, hm]

/-- Witness for C7: a `application/zip` upload at a concrete state. -/
theorem unsupported_mime_no_cache_entry_witness :
    ("@u:hs" ≠ "@bot:hs")
    ∧ (should_process_message 100 200 = true)
    ∧ (mimeLookup (resolved_mime
        ⟨"!r:hs", "@u:hs", "a.zip", 200, some "application/zip", some 9, none, none,
         some "mxc://x", some [1, 2]⟩) = none)
    ∧ on_file ⟨100, "@bot:hs", fun _ => none, fun _ => none⟩
        ⟨"!r:hs", "@u:hs", "a.zip", 200, some "application/zip", some 9, none, none,
         some "mxc://x", some [1, 2]⟩
        = (⟨100, "@bot:hs", fun _ => none, fun _ => none⟩,
           [.sent (unsupported_format_text (resolved_mime
             ⟨"!r:hs", "@u:hs", "a.zip", 200, some "application/zip", some 9, none, none,
              some "mxc://x", some [1, 2]⟩))]) :=
  ⟨by decide, by decide, by decide,
   unsupported_mime_no_cache_entry _ _ (by decide) (by decide) (by decide)⟩

/-- C8 counterexample: in a state with no pending attachment, `!rag` is met
by the generic unknown-command reply — which mentions neither files
(`файл`/`file`) nor any send-a-file-first guidance — not by a dedicated
response; so the claimed guidance reply does not exist in the code. -/
theorem rag_claim_counterexample :
    (handle_command ⟨100, "@bot:hs", fun _ => none, fun _ => none⟩ "!r:hs" "!rag"
      = (⟨100, "@bot:hs", fun _ => none, fun _ => none⟩,
         [.sent "❓ Неизвестная команда: !rag\nИспользуйте !help для списка команд."]))
    ∧ strContains "❓ Неизвестная команда: !rag\nИспользуйте !help для списка команд." "файл"
        = false
    ∧ strContains "❓ Неизвестная команда: !rag\nИспользуйте !help для списка команд." "file"
        = false := by
  refine ⟨rfl, by decide, by decide⟩

/-- C8 amended: `!rag` is not a recognized command; in every state the bot
replies with the unknown-command message (naming the command and pointing
to `!help`), leaves the state unchanged, and issues no gateway call. -/
theorem rag_unknown_command (st : BotState) (room : String) :
    handle_command st room "!rag" = (st, [.sent (unknown_command_text "!rag")]) := rfl

/-- C6 counterexample: with all 3 primary attempts failing (`KeyError`
each time) and the fallback HTTP send also failing (exception in one case,
HTTP 500 in the other — 4 failed attempts in total), `safe_room_send`
still reports success, where the claim requires it to report failure. -/
theorem send_failure_reported_counterexample :
    safe_room_send [.keyError, .keyError, .keyError] (.raise "connection refused") = true
    ∧ safe_room_send [.keyError, .keyError, .keyError] (.status 500) = true :=
  ⟨rfl, rfl⟩

/-- C6 amended: a send that fails its 3 primary attempts but whose fallback
HTTP path succeeds is reported as successful, and no exception escapes; but
when all 4 attempts fail the send is still reported as successful, because
`send_unencrypted_message` traps every error internally (it is `.ok` on
every input), leaving the failure branch of `safe_room_send` unreachable. -/
theorem send_always_reports_success :
    (∀ (attempts : List AttemptOutcome) (fallback : HttpPostOutcome),
        safe_room_send attempts fallback = true)
    ∧ (∀ out : HttpPostOutcome, send_unencrypted_message out = .ok ()) := by
  constructor
  · intro attempts fallback
    cases fallback <;> simp [safe_room_send, send_unencrypted_message]
  · intro out
    cases out <;> rfl

/-- C5: for a non-command text message the gateway outcome maps to the
reply exactly as specified — 200 with `{"text": "42"}` yields `"42"`, 413
yields the payload-too-large notice, 500 yields a reply containing `500`,
a client timeout yields the timeout notice — and `on_message` always sends
exactly one textual reply (after the gateway call), whatever the outcome:
no failure propagates out of the handler. -/
theorem gateway_outcome_reply_mapping :
    (flowise_answer (.response 200 (some "42")) = "42")
    ∧ (∀ t : Option String, flowise_answer (.response 413 t)
        = "❌ Файл слишком большой для обработки Flowise (макс. ~10MB).")
    ∧ (∀ t : Option String, strContains (flowise_answer (.response 500 t)) "500" = true)
    ∧ (flowise_answer .timeout = "⏰ Flowise не ответил вовремя. Попробуйте позже.")
    ∧ (∀ (st : BotState) (e : TextEvent), e.sender ≠ st.botUserId →
        should_process_message st.start_time e.ts = true →
        (pyStartsWith e.body "!") = false →
        (on_message st e).2 =
          [.gatewayCall ⟨e.body, (get_or_create_session st.session_cache e.room).1,
                         (st.file_cache (e.room, e.sender)).map mkUpload⟩,
           .sent (flowise_answer e.gateway)]) := by
  refine ⟨rfl, fun t => rfl, ?_, rfl, ?_⟩
  · intro t
    rw [show flowise_answer (.response 500 t) = "❌ Flowise error: 500" from rfl]
    decide
  · intro st e hs hf hc
    simp [on_message, on_message_core, hs, hf, hc]

/-- Witness for C5: a concrete fresh, non-command message (whose gateway
call times out) at a concrete state. -/
theorem gateway_outcome_reply_mapping_witness :
    ("@u:hs" ≠ "@bot:hs")
    ∧ (should_process_message 100 200 = true)
    ∧ ((pyStartsWith "hello" "!") = false)
    ∧ (on_message ⟨100, "@bot:hs", fun _ => none, fun _ => none⟩
        ⟨"!r:hs", "@u:hs", "hello", 200, .timeout⟩).2 =
        [.gatewayCall ⟨"hello",
            (get_or_create_session
              (⟨100, "@bot:hs", fun _ => none, fun _ => none⟩ : BotState).session_cache
              "!r:hs").1,
            ((⟨100, "@bot:hs", fun _ => none, fun _ => none⟩ : BotState).file_cache
              ("!r:hs", "@u:hs")).map mkUpload⟩,
         .sent (flowise_answer .timeout)] :=
  ⟨by decide, by decide, by decide,
   gateway_outcome_reply_mapping.2.2.2.2
     ⟨100, "@bot:hs", fun _ => none, fun _ => none⟩
     ⟨"!r:hs", "@u:hs", "hello", 200, .timeout⟩
     (by decide) (by decide) (by decide)⟩

/-- C10: when a non-command text message from sender S in room R finds a
pending attachment at `(R, S)`, the cache entry is gone in the final state
and the gateway request carries the attachment — for every gateway outcome
`e.gateway`, so in particular for `timeout` and for raised errors the
consumption is never rolled back (the pop precedes the HTTP call and no
error path restores the entry). -/
theorem attachment_removed_before_request (st : BotState) (e : TextEvent) (fi : FileInfo)
    (hs : e.sender ≠ st.botUserId)
    (hf : should_process_message st.start_time e.ts = true)
    (hc : (pyStartsWith e.body "!") = false)
    (hfi : st.file_cache (e.room, e.sender) = some fi) :
    (on_message st e).1.file_cache (e.room, e.sender) = none
    ∧ (on_message st e).2 =
        [.gatewayCall ⟨e.body, (get_or_create_session st.session_cache e.room).1,
                       some (mkUpload fi)⟩,
         .sent (flowise_answer e.gateway)] := by
  constructor
  · simp [on_message, on_message_core, hs, hf, hc]
  · simp [on_message, on_message_core, hs, hf, hc, hfi]

/-- Witness for C10: a pending attachment consumed by a message whose
gateway call times out. -/
theorem attachment_removed_before_request_witness :
    ("@u:hs" ≠ "@bot:hs")
    ∧ (should_process_message 100 200 = true)
    ∧ ((pyStartsWith "hello" "!") = false)
    ∧ ((fun k => if k = ("!r:hs", "@u:hs")
          then some (⟨"aGk=", "text/plain", "a.txt", 2⟩ : FileInfo) else none)
        ("!r:hs", "@u:hs") = some (⟨"aGk=", "text/plain", "a.txt", 2⟩ : FileInfo))
    ∧ ((on_message
          ⟨100, "@bot:hs",
           (fun k => if k = ("!r:hs", "@u:hs")
              then some (⟨"aGk=", "text/plain", "a.txt", 2⟩ : FileInfo) else none),
           (fun _ => none)⟩
          ⟨"!r:hs", "@u:hs", "hello", 200, .timeout⟩).1.file_cache ("!r:hs", "@u:hs") = none) :=
  ⟨by decide, by decide, by decide, by decide,
   (attachment_removed_before_request
      ⟨100, "@bot:hs",
       (fun k => if k = ("!r:hs", "@u:hs")
          then some (⟨"aGk=", "text/plain", "a.txt", 2⟩ : FileInfo) else none),
       (fun _ => none)⟩
      ⟨"!r:hs", "@u:hs", "hello", 200, .timeout⟩
      ⟨"aGk=", "text/plain", "a.txt", 2⟩
      (by decide) (by decide) (by decide) (by decide)).1⟩

/-- C1 counterexample: a room with an existing (hash-generated) session and
a cached attachment, after `!reset`: the next session id created for the
room EQUALS the immediately preceding one (the claim requires it to
differ), and the attachment keyed by the room is STILL in the cache (the
claim requires the cache to hold no entry for the room). -/
theorem reset_claim_counterexample :
    ((get_or_create_session
        ((handle_command
            ⟨100, "@bot:hs",
             (fun k => if k = ("!room:example.org", "@u:hs")
                then some (⟨"aGk=", "text/plain", "a.txt", 2⟩ : FileInfo) else none),
             ((get_or_create_session (fun _ => none) "!room:example.org").2)⟩
            "!room:example.org" "!reset").1).session_cache "!room:example.org").1
      = (get_or_create_session
          ((get_or_create_session (fun _ => none) "!room:example.org").2)
          "!room:example.org").1)
    ∧ ((handle_command
          ⟨100, "@bot:hs",
           (fun k => if k = ("!room:example.org", "@u:hs")
              then some (⟨"aGk=", "text/plain", "a.txt", 2⟩ : FileInfo) else none),
           ((get_or_create_session (fun _ => none) "!room:example.org").2)⟩
          "!room:example.org" "!reset").1.file_cache ("!room:example.org", "@u:hs")
        = some (⟨"aGk=", "text/plain", "a.txt", 2⟩ : FileInfo)) :=
  ⟨rfl, rfl⟩

/-- C1 amended: `!reset` in a room with an existing session removes that
room's session-cache entry and replies that the session was reset; it does
not touch the attachment cache, and the session id subsequently recreated
for the room is `generate_session_id room` — identical to any predecessor
produced by `get_or_create_session`, since generation is a deterministic
hash of the room id. -/
theorem reset_actual_behavior (st : BotState) (room : String)
    (h : (st.session_cache room).isSome = true) :
    ((handle_command st room "!reset").1.session_cache room = none)
    ∧ ((handle_command st room "!reset").1.file_cache = st.file_cache)
    ∧ ((handle_command st room "!reset").2
        = [.sent "🔄 Сессия сброшена. Начинаем новый диалог."])
    ∧ ((get_or_create_session ((handle_command st room "!reset").1).session_cache room).1
        = generate_session_id room) := by
  refine ⟨?_, ?_, ?_, ?_⟩ <;>
    simp [handle_command, strip_reset, h, get_or_create_session]

/-- Witness for C1's amended theorem, at the counterexample's state. -/
theorem reset_actual_behavior_witness :
    ((((get_or_create_session (fun _ => none) "!room:example.org").2)
        "!room:example.org").isSome = true)
    ∧ ((handle_command
          ⟨100, "@bot:hs",
           (fun k => if k = ("!room:example.org", "@u:hs")
              then some (⟨"aGk=", "text/plain", "a.txt", 2⟩ : FileInfo) else none),
           ((get_or_create_session (fun _ => none) "!room:example.org").2)⟩
          "!room:example.org" "!reset").1.session_cache "!room:example.org" = none)
    ∧ ((handle_command
          ⟨100, "@bot:hs",
           (fun k => if k = ("!room:example.org", "@u:hs")
              then some (⟨"aGk=", "text/plain", "a.txt", 2⟩ : FileInfo) else none),
           ((get_or_create_session (fun _ => none) "!room:example.org").2)⟩
          "!room:example.org" "!reset").1.file_cache
        = (⟨100, "@bot:hs",
            (fun k => if k = ("!room:example.org", "@u:hs")
               then some (⟨"aGk=", "text/plain", "a.txt", 2⟩ : FileInfo) else none),
            ((get_or_create_session (fun _ => none) "!room:example.org").2)⟩ :
            BotState).file_cache) :=
  ⟨rfl,
   (reset_actual_behavior
      ⟨100, "@bot:hs",
       (fun k => if k = ("!room:example.org", "@u:hs")
          then some (⟨"aGk=", "text/plain", "a.txt", 2⟩ : FileInfo) else none),
       ((get_or_create_session (fun _ => none) "!room:example.org").2)⟩
      "!room:example.org" (by rfl)).1,
   (reset_actual_behavior
      ⟨100, "@bot:hs",
       (fun k => if k = ("!room:example.org", "@u:hs")
          then some (⟨"aGk=", "text/plain", "a.txt", 2⟩ : FileInfo) else none),
       ((get_or_create_session (fun _ => none) "!room:example.org").2)⟩
      "!room:example.org" (by rfl)).2.1⟩

/-- C3: a file stored by `on_file` for `(room, sender)` is handed to the
gateway by the next non-command text message from that sender in that room
exactly once: the first message's request carries the attachment and
removes the cache entry; a second message with no intervening upload
carries none. -/
theorem attachment_put_take_exactly_once (st : BotState) (e : FileEvent) (m m2 : TextEvent)
    (u b64 : String)
    (hs : e.sender ≠ st.botUserId)
    (hf : should_process_message st.start_time e.ts = true)
    (hm : (mimeLookup (resolved_mime e)).isNone = false)
    (hu : e.url = some u)
    (hd : download_and_encode_file e.downloadBody = some b64)
    (hmroom : m.room = e.room) (hmsend : m.sender = e.sender)
    (hms : m.sender ≠ st.botUserId)
    (hmf : should_process_message st.start_time m.ts = true)
    (hmc : (pyStartsWith m.body "!") = false)
    (hm2room : m2.room = e.room) (hm2send : m2.sender = e.sender)
    (hm2s : m2.sender ≠ st.botUserId)
    (hm2f : should_process_message st.start_time m2.ts = true)
    (hm2c : (pyStartsWith m2.body "!") = false) :
    ((on_file st e).1.file_cache (e.room, e.sender) = some (stored_file_info e b64))
    ∧ ((on_message (on_file st e).1 m).2
        = [.gatewayCall ⟨m.body,
              (get_or_create_session (on_file st e).1.session_cache m.room).1,
              some (mkUpload (stored_file_info e b64))⟩,
           .sent (flowise_answer m.gateway)])
    ∧ ((on_message (on_file st e).1 m).1.file_cache (e.room, e.sender) = none)
    ∧ ((on_message (on_message (on_file st e).1 m).1 m2).2
        = [.gatewayCall ⟨m2.body,
              (get_or_create_session
                (on_message (on_file st e).1 m).1.session_cache m2.room).1,
              none⟩,
           .sent (flowise_answer m2.gateway)]) := by
  refine ⟨?_, ?_, ?_, ?_⟩
  · simp [on_file, hs, hf, hm, hu, hd]
  · simp [on_message, on_message_core, on_file, hs, hf, hm, hu, hd,
          hms, hmf, hmc, hmroom, hmsend]
  · simp [on_message, on_message_core, on_file, hs, hf, hm, hu, hd,
          hms, hmf, hmc, hmroom, hmsend]
  · simp [on_message, on_message_core, on_file, hs, hf, hm, hu, hd,
          hms, hmf, hmc, hmroom, hmsend, hm2s, hm2f, hm2c, hm2room, hm2send]

/-- Witness for C3: a concrete text file, consumed by a first question and
absent for the second. -/
theorem attachment_put_take_exactly_once_witness :
    (download_and_encode_file (some [104, 105]) = some "aGk=")
    ∧ ((on_file ⟨100, "@bot:hs", fun _ => none, fun _ => none⟩
          ⟨"!r:hs", "@u:hs", "notes", 200, some "text/plain", some 2, none, none,
           some "mxc://f", some [104, 105]⟩).1.file_cache ("!r:hs", "@u:hs")
        = some (stored_file_info
            ⟨"!r:hs", "@u:hs", "notes", 200, some "text/plain", some 2, none, none,
             some "mxc://f", some [104, 105]⟩ "aGk="))
    ∧ ((on_message
          (on_file ⟨100, "@bot:hs", fun _ => none, fun _ => none⟩
            ⟨"!r:hs", "@u:hs", "notes", 200, some "text/plain", some 2, none, none,
             some "mxc://f", some [104, 105]⟩).1
          ⟨"!r:hs", "@u:hs", "what?", 300, .response 200 (some "42")⟩).1.file_cache
        ("!r:hs", "@u:hs") = none)
    ∧ ((on_message
          (on_message
            (on_file ⟨100, "@bot:hs", fun _ => none, fun _ => none⟩
              ⟨"!r:hs", "@u:hs", "notes", 200, some "text/plain", some 2, none, none,
               some "mxc://f", some [104, 105]⟩).1
            ⟨"!r:hs", "@u:hs", "what?", 300, .response 200 (some "42")⟩).1
          ⟨"!r:hs", "@u:hs", "again?", 400, .timeout⟩).2
        = [.gatewayCall ⟨"again?",
              (get_or_create_session
                (on_message
                  (on_file ⟨100, "@bot:hs", fun _ => none, fun _ => none⟩
                    ⟨"!r:hs", "@u:hs", "notes", 200, some "text/plain", some 2, none, none,
                     some "mxc://f", some [104, 105]⟩).1
                  ⟨"!r:hs", "@u:hs", "what?", 300, .response 200 (some "42")⟩).1.session_cache
                "!r:hs").1,
              none⟩,
           .sent (flowise_answer .timeout)]) :=
  ⟨by decide,
   (attachment_put_take_exactly_once
      ⟨100, "@bot:hs", fun _ => none, fun _ => none⟩
      ⟨"!r:hs", "@u:hs", "notes", 200, some "text/plain", some 2, none, none,
       some "mxc://f", some [104, 105]⟩
      ⟨"!r:hs", "@u:hs", "what?", 300, .response 200 (some "42")⟩
      ⟨"!r:hs", "@u:hs", "again?", 400, .timeout⟩
      "mxc://f" "aGk="
      (by decide) (by decide) (by decide) (by decide) (by decide)
      (by decide) (by decide) (by decide) (by decide) (by decide)
      (by decide) (by decide) (by decide) (by decide) (by decide)).1,
   (attachment_put_take_exactly_once
      ⟨100, "@bot:hs", fun _ => none, fun _ => none⟩
      ⟨"!r:hs", "@u:hs", "notes", 200, some "text/plain", some 2, none, none,
       some "mxc://f", some [104, 105]⟩
      ⟨"!r:hs", "@u:hs", "what?", 300, .response 200 (some "42")⟩
      ⟨"!r:hs", "@u:hs", "again?", 400, .timeout⟩
      "mxc://f" "aGk="
      (by decide) (by decide) (by decide) (by decide) (by decide)
      (by decide) (by decide) (by decide) (by decide) (by decide)
      (by decide) (by decide) (by decide) (by decide) (by decide)).2.2.1,
   (attachment_put_take_exactly_once
      ⟨100, "@bot:hs", fun _ => none, fun _ => none⟩
      ⟨"!r:hs", "@u:hs", "notes", 200, some "text/plain", some 2, none, none,
       some "mxc://f", some [104, 105]⟩
      ⟨"!r:hs", "@u:hs", "what?", 300, .response 200 (some "42")⟩
      ⟨"!r:hs", "@u:hs", "again?", 400, .timeout⟩
      "mxc://f" "aGk="
      (by decide) (by decide) (by decide) (by decide) (by decide)
      (by decide) (by decide) (by decide) (by decide) (by decide)
      (by decide) (by decide) (by decide) (by decide) (by decide)).2.2.2⟩

end FlowiseBot
